import Mathlib

/-!
Verification of the "Handmade by Rama" e-commerce backend
(`main.py` / `schemas.py`) against its natural-language specification.

The code is shallowly embedded: the document store is a record of three
association lists (products, users, orders keyed by their ObjectId string);
each HTTP handler becomes a pure function from the store and the request
body to an `Except ApiError` result; `datetime.utcnow()` becomes an
explicit `now : Nat` argument and Mongo's ObjectId generation an explicit
fresh-id argument.  Python floats appearing in the code (`price_usd`,
`usd * rate`) are modelled as exact rationals: every arithmetic step the
claims touch (products of small dyadic rationals with moderate integers)
is exact in IEEE double precision, so the rational model agrees with the
float computation on all inputs considered here.
-/

namespace Rama

/-- Hex digit test, as used by `bson.ObjectId.is_valid`. -/
def isHexChar (c : Char) : Bool :=
  c.isDigit || ('a' ≤ c && c ≤ 'f') || ('A' ≤ c && c ≤ 'F')

/-- `bson.ObjectId(s)` succeeds on a string exactly when it is 24 hex
characters; otherwise it raises `bson.errors.InvalidId`. -/
def isValidObjectId (s : String) : Bool :=
  s.length == 24 && s.data.all isHexChar

/-- Outcome classes of a handler: HTTP 400 (`HTTPException(400, ...)`),
HTTP 404 (`HTTPException(404, ...)`), and an uncaught exception escaping
the handler, which FastAPI turns into an HTTP 500 server error. -/
inductive ApiError
  | invalidInput : String → ApiError
  | notFound : String → ApiError
  | serverError : String → ApiError
deriving DecidableEq, Repr

/-- Python `str.strip()` (drop leading and trailing whitespace), stated at
the character-list level so the kernel can evaluate it. -/
def pyStrip (s : String) : String :=
  ⟨((s.data.dropWhile Char.isWhitespace).reverse.dropWhile Char.isWhitespace).reverse⟩

/-- Python `str.startswith(pre)`. -/
def pyStartsWith (s pre : String) : Bool :=
  pre.data.isPrefixOf s.data

/-- Python `len` on a string (character count). -/
def pyLen (s : String) : Nat :=
  s.data.length

/-- Python `s[n:]`. -/
def pyDrop (s : String) (n : Nat) : String :=
  ⟨s.data.drop n⟩

/-- `Address.validate_phone` from `schemas.py`: strip, accept `+963`-prefixed
strings of length 12 or 13 unchanged, normalize `09`-prefixed strings of
length 10 to `+963` + rest, reject everything else. -/
def validate_phone (v : String) : Except String String :=
  let v := pyStrip v
  if pyStartsWith v "+963" && (pyLen v == 12 || pyLen v == 13) then
    Except.ok v
  else if pyStartsWith v "09" && pyLen v == 10 then
    Except.ok ("+963" ++ pyDrop v 1)
  else
    Except.error "Phone must be in Syrian format starting with +963 or 09"

/-- `Address` model from `schemas.py` (its `phone` field is the one
`validate_phone` has been applied to whenever the record was produced by
pydantic validation). -/
structure Address where
  id : Option String := none
  full_name : String
  phone : String
  city : String
  street : String
  notes : Option String := none
deriving DecidableEq, Repr

/-- `User` model from `schemas.py`, plus the `created_at`/`updated_at`
timestamps the handlers add to the stored document. -/
structure User where
  phone : String
  name : String
  addresses : List Address := []
  is_active : Bool := true
  created_at : Nat := 0
  updated_at : Nat := 0
deriving DecidableEq, Repr

/-- `Product` model from `schemas.py`, plus stored timestamps.  `price_usd`
(a Python float) is modelled as an exact rational. -/
structure Product where
  name : String
  description : Option String := none
  category : String
  price_syp : Int
  price_usd : ℚ
  images : List String := []
  featured : Bool := false
  new_arrival : Bool := false
  in_stock : Bool := true
  created_at : Nat := 0
  updated_at : Nat := 0
deriving DecidableEq, Repr

/-- `OrderItem` model from `schemas.py`. -/
structure OrderItem where
  product_id : String
  name : String
  category : String
  quantity : Nat
  price_syp : Int
  price_usd : ℚ
  image : Option String := none
deriving DecidableEq, Repr

/-- `Order` model from `schemas.py`, plus stored timestamps.  The
`expected_delivery_date` (a Python `date`) is modelled as a string. -/
structure Order where
  user_phone : String
  user_name : String
  items : List OrderItem
  address : Address
  city : String
  notes : Option String := none
  status : String := "Pending COD"
  admin_note : Option String := none
  expected_delivery_date : Option String := none
  created_at : Nat := 0
  updated_at : Nat := 0
deriving DecidableEq, Repr

/-- The `OrderStatus` literal type from `schemas.py`. -/
def OrderStatusValues : List String :=
  ["Pending COD", "Pending", "Confirmed", "On Delivery", "Delivered", "Canceled"]

/-- The document store: the three collections the handlers touch, each an
association list from ObjectId string to document. -/
structure DB where
  products : List (String × Product) := []
  users : List User := []
  orders : List (String × Order) := []
deriving DecidableEq, Repr

/-- `find_one({"_id": ObjectId(pid)})` on a collection keyed by id. -/
def findById (ps : List (String × Product)) (pid : String) : Option Product :=
  (ps.find? (fun p => p.1 == pid)).map Prod.snd

/-- Python `int(x)` on a float/rational: truncation toward zero. -/
def truncQ (x : ℚ) : Int :=
  if 0 ≤ x then ⌊x⌋ else ⌈x⌉

/-- The inner `priced` helper of `seed_products` in `main.py`.  Its first
argument is unused by the source as well.  `int(usd * rate)` is the
truncation of the exact product (exact in float for these magnitudes). -/
def priced (category : String) (usd : Option ℚ) (rate : Int) : ℚ × Int :=
  match usd with
  | none => (0, 0)
  | some u => (u, truncQ (u * (rate : ℚ)))

/-- The five demonstration products assembled by `seed_products`
(`main.py`), with `created_at`/`updated_at` stamped by the handler.  The
`rate` argument is the value of `usd_to_syp_rate()`: the environment
integer `USD_TO_SYP`, defaulting to 15000. -/
def seedRows (rate : Int) (now : Nat) : List Product :=
  [{ name := "Handmade Necklace 1",
     description := some "Elegant minimalist handmade necklace.",
     category := "necklaces",
     price_usd := (priced "necklaces" (some (5/2)) rate).1,
     price_syp := (priced "necklaces" (some (5/2)) rate).2,
     images := [], featured := true, new_arrival := true,
     created_at := now, updated_at := now },
   { name := "Handmade Necklace 2",
     description := some "Delicate everyday necklace.",
     category := "necklaces",
     price_usd := (priced "necklaces" (some (5/2)) rate).1,
     price_syp := (priced "necklaces" (some (5/2)) rate).2,
     images := [], created_at := now, updated_at := now },
   { name := "Handmade Bracelet 1",
     description := some "Simple bracelet for daily wear.",
     category := "bracelets",
     price_usd := (priced "bracelets" (some (3/2)) rate).1,
     price_syp := (priced "bracelets" (some (3/2)) rate).2,
     images := [], new_arrival := true, created_at := now, updated_at := now },
   { name := "Handmade Earrings 1",
     description := some "Lightweight handmade earrings.",
     category := "earrings",
     price_usd := (priced "earrings" (some (3/2)) rate).1,
     price_syp := (priced "earrings" (some (3/2)) rate).2,
     images := [], featured := true, created_at := now, updated_at := now },
   { name := "Handmade Ring 1",
     description := some "Adjustable handmade ring.",
     category := "rings",
     price_usd := (priced "rings" none rate).1,
     price_syp := (priced "rings" none rate).2,
     images := [], in_stock := true, created_at := now, updated_at := now }]

/-- The `CategoryLiteral` values of `schemas.py`. -/
def CategoryValues : List String :=
  ["necklaces", "bracelets", "earrings", "rings"]

/-- The constraints `ProductSchema` (`schemas.py`) checks on a product
document: the category literal and the `ge=0` floors on `price_syp` and
`price_usd`. -/
def productSchemaOk (p : Product) : Bool :=
  CategoryValues.contains p.category &&
  decide (0 ≤ p.price_syp) && decide (0 ≤ p.price_usd)

/-- The store after a (re)seed: the catalog replaced by the five rows,
each under a fresh generated id. -/
def seededDB (d : DB) (rate : Int) (now : Nat) (gen : Nat → String) : DB :=
  { d with products := (seedRows rate now).enum.map (fun ip => (gen ip.1, ip.2)) }

/-- `POST /api/seed` (`seed_products` in `main.py`).  `gen` models Mongo's
generation of a fresh ObjectId for each inserted document.  Before any
write, every assembled row passes through `ProductSchema(**p)`: pydantic
enforces the category literal and `price_syp ≥ 0`, `price_usd ≥ 0`; a
failing row (e.g. a negative `price_syp` from a negative environment
rate) raises a `ValidationError` that escapes the handler — an HTTP 500
— with the catalog untouched, since `delete_many`/`insert_many` run only
after the loop.  (The source raises at the first failing row; the model
folds the per-row checks into one pass, with the same outcome.)  On
success, returns the new store with the response's `status` and `count`. -/
def seed_products (d : DB) (rate : Int) (force : Bool) (now : Nat)
    (gen : Nat → String) : Except ApiError (DB × String × Nat) :=
  let count := d.products.length
  if count > 0 && !force then
    Except.ok (d, "exists", count)
  else
    let docs := seedRows rate now
    if docs.all productSchemaOk then
      Except.ok (seededDB d rate now gen, "seeded", docs.length)
    else
      Except.error (ApiError.serverError "pydantic.ValidationError")

/-- `GET /api/products/{product_id}` (`get_product` in `main.py`).  The
handler calls `ObjectId(product_id)` unguarded: on a malformed id the
`bson.errors.InvalidId` exception escapes and FastAPI answers 500. -/
def get_product (d : DB) (product_id : String) : Except ApiError Product :=
  if !isValidObjectId product_id then
    Except.error (ApiError.serverError "bson.errors.InvalidId")
  else
    match findById d.products product_id with
    | none => Except.error (ApiError.notFound "Product not found")
    | some p => Except.ok p

/-- Query parameters of `GET /api/products`. -/
structure ListQuery where
  category : Option String := none
  search : Option String := none
  featured : Option Bool := none
  new_arrival : Option Bool := none
  sort : Option String := none
deriving DecidableEq, Repr

/-- Tokens of the regular-expression fragment needed to model Mongo's
`$regex` on the search strings considered here: every character stands
for itself except `.`, which matches any character other than a newline.
(The claims below quantify only over search strings inside this fragment,
i.e. containing no other regex metacharacter.) -/
inductive RTok
  | lit : Char → RTok
  | dot : RTok
deriving DecidableEq, Repr

/-- Parse a search string into the fragment's token list. -/
def parseSearchPattern (s : String) : List RTok :=
  s.data.map (fun c => if c == '.' then RTok.dot else RTok.lit c)

/-- One token against one character, under the `"i"` (case-insensitive)
option of the source's `{"$regex": search, "$options": "i"}`. -/
def tokMatch : RTok → Char → Bool
  | RTok.lit c, d => c.toLower == d.toLower
  | RTok.dot, d => d != '\n'

/-- Match the whole token list at the head of the text. -/
def matchHere : List RTok → List Char → Bool
  | [], _ => true
  | _ :: _, [] => false
  | t :: ts, c :: cs => tokMatch t c && matchHere ts cs

/-- Unanchored matching: Mongo's `$regex` succeeds if the pattern matches
at any start position of the text. -/
def regexFind (toks : List RTok) : List Char → Bool
  | [] => matchHere toks []
  | c :: cs => matchHere toks (c :: cs) || regexFind toks cs

/-- The `name` condition the source sends to the store when a search
string is present. -/
def regexMatchI (pat name : String) : Bool :=
  regexFind (parseSearchPattern pat) name.data

/-- The regex metacharacters of the PCRE syntax Mongo uses; outside this
set every character denotes itself. -/
def regexMetaChars : List Char :=
  ['.', '^', '$', '*', '+', '?', '(', ')', '[', ']', '\x7b', '\x7d', '|', '\\']

/-- The equality filter `q` that `list_products` builds from the provided
fields (Python truthiness: an empty `category` string adds no filter). -/
def matchesEqFilters (q : ListQuery) (p : Product) : Bool :=
  (match q.category with
   | some c => if c != "" then p.category == c else true
   | none => true) &&
  (match q.featured with
   | some b => p.featured == b
   | none => true) &&
  (match q.new_arrival with
   | some b => p.new_arrival == b
   | none => true)

/-- The full filter actually queried: the equality filter, plus — when a
non-empty search string is present — the case-insensitive `$regex` on
`name`, all conjoined. -/
def matchesQuery (q : ListQuery) (p : Product) : Bool :=
  matchesEqFilters q p &&
  (match q.search with
   | some s => if s != "" then regexMatchI s p.name else true
   | none => true)

/-- The `sort_map` of `list_products`. -/
def sort_map : List (String × String × Int) :=
  [("name_asc", ("name", 1)), ("name_desc", ("name", -1)),
   ("price_asc", ("price_syp", 1)), ("price_desc", ("price_syp", -1)),
   ("new", ("created_at", -1))]

/-- Comparison used by the store for `cursor.sort(field, direction)`. -/
def fieldLe (field : String) (dir : Int) (a b : Product) : Bool :=
  match field with
  | "name" => if dir == 1 then decide (a.name ≤ b.name) else decide (b.name ≤ a.name)
  | "price_syp" => if dir == 1 then decide (a.price_syp ≤ b.price_syp)
                   else decide (b.price_syp ≤ a.price_syp)
  | "created_at" => if dir == 1 then decide (a.created_at ≤ b.created_at)
                    else decide (b.created_at ≤ a.created_at)
  | _ => true

/-- Apply the sort step of `list_products`: only a key present in
`sort_map` sorts; anything else leaves storage order. -/
def sortProducts (sortOpt : Option String) (ps : List (String × Product)) :
    List (String × Product) :=
  match sortOpt with
  | none => ps
  | some s =>
    if s != "" then
      match (sort_map.find? (fun kv => kv.1 == s)).map Prod.snd with
      | some fd => ps.mergeSort (fun a b => fieldLe fd.1 fd.2 a.2 b.2)
      | none => ps
    else ps

/-- `GET /api/products` (`list_products` in `main.py`): filter, then sort,
then return the documents and their count. -/
def list_products (d : DB) (q : ListQuery) : List (String × Product) × Nat :=
  let filtered := d.products.filter (fun p => matchesQuery q p.2)
  let sorted := sortProducts q.sort filtered
  (sorted, sorted.length)

/-- Replace the first user whose `phone` equals the given key (this is the
user `find_one({"phone": phone})` returned, so `update_one` by its `_id`
updates exactly this entry). -/
def replaceFirstUser : List User → String → User → List User
  | [], _, _ => []
  | u :: rest, p, nu =>
    if u.phone == p then nu :: rest else u :: replaceFirstUser rest p nu

/-- `POST /api/user/{phone}/addresses` (`add_address` in `main.py`).  The
body is validated by pydantic before the handler runs: a failing
`validate_phone` is a FastAPI request-validation error (HTTP 422, a
client error, modelled as `invalidInput`).  Note the new-user branch
stores the **path** `phone` as the user's phone, not the body's
normalized phone. -/
def add_address (users : List User) (phone : String) (body : Address)
    (now : Nat) : Except ApiError (List User) := do
  let p ← match validate_phone body.phone with
    | Except.ok p => pure p
    | Except.error e => throw (ApiError.invalidInput e)
  let addr : Address := { body with phone := p }
  match users.find? (fun u => u.phone == phone) with
  | none =>
    let newUser : User :=
      { phone := phone, name := addr.full_name, addresses := [addr],
        is_active := true, created_at := now, updated_at := now }
    Except.ok (users ++ [newUser])
  | some user =>
    let ex := user.addresses.any (fun a => a.phone == addr.phone && a.street == addr.street)
    if ex then
      Except.ok users
    else
      Except.ok (replaceFirstUser users phone
        { user with addresses := user.addresses ++ [addr], updated_at := now })

/-- One requested order line (`OrderItemIn` in `main.py`); pydantic
enforces `quantity ≥ 1` before the handler runs. -/
structure OrderItemIn where
  product_id : String
  quantity : Nat
deriving DecidableEq, Repr

/-- The body of `POST /api/orders` (`OrderCreateIn` in `main.py`). -/
structure OrderCreateIn where
  full_name : String
  phone : String
  city : String
  street : String
  notes : Option String := none
  address_id : Option String := none
  items : List OrderItemIn
deriving DecidableEq, Repr

/-- The item loop of `create_order`: for each requested item,
`ObjectId(it.product_id)` (a malformed id raises `bson.errors.InvalidId`,
escaping as a 500), then `find_one`; a missing product is
`HTTPException(400, "Invalid product: <id>")`; otherwise the snapshot
copies name/category/prices and `(prod.get("images") or [None])[0]`,
i.e. the first image when the list is non-empty and `None` otherwise. -/
def buildItems (ps : List (String × Product)) :
    List OrderItemIn → Except ApiError (List OrderItem)
  | [] => Except.ok []
  | it :: rest =>
    if !isValidObjectId it.product_id then
      Except.error (ApiError.serverError "bson.errors.InvalidId")
    else
      match findById ps it.product_id with
      | none => Except.error (ApiError.invalidInput ("Invalid product: " ++ it.product_id))
      | some prod => do
        let tail ← buildItems ps rest
        let item : OrderItem :=
          { product_id := it.product_id, name := prod.name,
            category := prod.category, quantity := it.quantity,
            price_syp := prod.price_syp, price_usd := prod.price_usd,
            image := prod.images.head? }
        Except.ok (item :: tail)

/-- `POST /api/orders` (`create_order` in `main.py`): build the item
snapshots, construct the normalized Address (an invalid phone raises an
uncaught pydantic `ValidationError` here — a 500, since this validation
runs inside the handler), insert the order with status `"Pending COD"`,
then upsert the user / append the address exactly as `add_address` does
(keyed here on the normalized phone).  `oid` models the ObjectId that
`insert_one` generates. -/
def create_order (d : DB) (body : OrderCreateIn) (now : Nat) (oid : String) :
    Except ApiError (DB × String × String) := do
  let items ← buildItems d.products body.items
  let phone ← match validate_phone body.phone with
    | Except.ok p => pure p
    | Except.error e => throw (ApiError.serverError e)
  let addr : Address :=
    { id := none, full_name := body.full_name, phone := phone,
      city := body.city, street := body.street, notes := body.notes }
  let order : Order :=
    { user_phone := addr.phone, user_name := addr.full_name,
      items := items, address := addr, city := addr.city, notes := addr.notes,
      status := "Pending COD", admin_note := none, expected_delivery_date := none,
      created_at := now, updated_at := now }
  let orders' := d.orders ++ [(oid, order)]
  let users' :=
    match d.users.find? (fun u => u.phone == addr.phone) with
    | none =>
      let newUser : User :=
        { phone := addr.phone, name := addr.full_name, addresses := [addr],
          is_active := true, created_at := now, updated_at := now }
      d.users ++ [newUser]
    | some user =>
      let ex := user.addresses.any (fun a => a.phone == addr.phone && a.street == addr.street)
      if ex then d.users
      else
        replaceFirstUser d.users addr.phone
          { user with addresses := user.addresses ++ [addr], updated_at := now }
  Except.ok ({ d with orders := orders', users := users' }, oid, "Pending COD")

/-- The Address value `create_order` constructs from the submitted fields
(with `p` the normalized phone). -/
def createdAddr (body : OrderCreateIn) (p : String) : Address :=
  { id := none, full_name := body.full_name, phone := p,
    city := body.city, street := body.street, notes := body.notes }

/-- The Order document `create_order` inserts. -/
def createdOrder (body : OrderCreateIn) (items : List OrderItem) (p : String)
    (now : Nat) : Order :=
  { user_phone := (createdAddr body p).phone,
    user_name := (createdAddr body p).full_name,
    items := items, address := createdAddr body p,
    city := (createdAddr body p).city, notes := (createdAddr body p).notes,
    status := "Pending COD", admin_note := none,
    expected_delivery_date := none, created_at := now, updated_at := now }

/-- The user collection after `create_order`'s upsert step. -/
def createdUsers (users : List User) (addr : Address) (now : Nat) : List User :=
  match users.find? (fun u => u.phone == addr.phone) with
  | none =>
    let newUser : User :=
      { phone := addr.phone, name := addr.full_name, addresses := [addr],
        is_active := true, created_at := now, updated_at := now }
    users ++ [newUser]
  | some user =>
    let ex := user.addresses.any (fun a => a.phone == addr.phone && a.street == addr.street)
    if ex then users
    else
      replaceFirstUser users addr.phone
        { user with addresses := user.addresses ++ [addr], updated_at := now }

/-- The full store after a successful `create_order`. -/
def createdDB (d : DB) (body : OrderCreateIn) (now : Nat) (oid : String)
    (items : List OrderItem) (p : String) : DB :=
  { d with orders := d.orders ++ [(oid, createdOrder body items p now)],
           users := createdUsers d.users (createdAddr body p) now }

/-- The body of `PATCH /api/orders/{order_id}/status`. -/
structure StatusUpdateIn where
  status : String
  admin_note : Option String := none
  expected_delivery_date : Option String := none
deriving DecidableEq, Repr

/-- The `allowed` status whitelist of `update_order_status` in `main.py`. -/
def allowed : List String :=
  ["Pending", "Confirmed", "On Delivery", "Delivered", "Canceled", "Pending COD"]

/-- Replace the first order whose key equals the given id. -/
def replaceFirstOrder : List (String × Order) → String → Order → List (String × Order)
  | [], _, _ => []
  | o :: rest, k, no =>
    if o.1 == k then (o.1, no) :: rest else o :: replaceFirstOrder rest k no

/-- `PATCH /api/orders/{order_id}/status` (`update_order_status` in
`main.py`): whitelist check first; then `ObjectId(order_id)` (malformed →
uncaught `InvalidId`, a 500); `matched_count == 0` → 404; otherwise
`$set` status, `updated_at` and exactly the provided optional fields, and
return the re-read updated order. -/
def update_order_status (orders : List (String × Order)) (order_id : String)
    (body : StatusUpdateIn) (now : Nat) :
    Except ApiError (List (String × Order) × Order) :=
  if !(allowed.contains body.status) then
    Except.error (ApiError.invalidInput "Invalid status")
  else if !isValidObjectId order_id then
    Except.error (ApiError.serverError "bson.errors.InvalidId")
  else
    match (orders.find? (fun po => po.1 == order_id)).map Prod.snd with
    | none => Except.error (ApiError.notFound "Order not found")
    | some o =>
      let o' : Order := { o with
        status := body.status,
        updated_at := now,
        admin_note := match body.admin_note with
          | some n => some n
          | none => o.admin_note,
        expected_delivery_date := match body.expected_delivery_date with
          | some dd => some dd
          | none => o.expected_delivery_date }
      Except.ok (replaceFirstOrder orders order_id o', o')

/-- Spec-side notion for §4.1: `pat` occurs in `s` as a case-insensitive
substring. -/
def substrCI (pat s : String) : Bool :=
  decide ((pat.data.map Char.toLower) <:+: (s.data.map Char.toLower))

/-- The two operations that write to the order collection. -/
inductive OrderOp
  | create : OrderCreateIn → Nat → String → OrderOp
  | updateStatus : String → StatusUpdateIn → Nat → OrderOp

/-- Effect of an order-writing operation on the store; a failing handler
performs no write (all raises happen before, or instead of, the write). -/
def applyOrderOp (d : DB) : OrderOp → DB
  | OrderOp.create body now oid =>
    match create_order d body now oid with
    | Except.ok (d', _, _) => d'
    | Except.error _ => d
  | OrderOp.updateStatus oid body now =>
    match update_order_status d.orders oid body now with
    | Except.ok (os', _) => { d with orders := os' }
    | Except.error _ => d

/-! Concrete fixtures used by counterexamples and witnesses. -/

/-- A fresh-id generator for seeding fixtures. -/
def genIdA : Nat → String := fun _ => "ffffffffffffffffffffffff"

/-- A single stored product. -/
def sampleProduct : Product :=
  { name := "abc", category := "rings", price_syp := 5, price_usd := 1, images := [] }

/-- A well-formed ObjectId string (24 hex characters). -/
def fixPid : String := "aaaaaaaaaaaaaaaaaaaaaaaa"

/-- A store holding just `sampleProduct`. -/
def dbOneProduct : DB := { products := [(fixPid, sampleProduct)] }

/-- An order-creation body whose single item has a structurally malformed
product id. -/
def bodyBadItem : OrderCreateIn :=
  { full_name := "Rama", phone := "0912345678", city := "Damascus",
    street := "Main", items := [{ product_id := "abc", quantity := 1 }] }

/-- An address body submitted in `09…` form. -/
def addrBody : Address :=
  { full_name := "Rama", phone := "0912345678", city := "Damascus", street := "Main" }

/-- A stored order used by the status-update fixtures. -/
def sampleOrder : Order :=
  { user_phone := "+963912345678", user_name := "Rama", items := [],
    address := { addrBody with phone := "+963912345678" }, city := "Damascus",
    status := "Pending COD", created_at := 1, updated_at := 1 }

/-- An order collection holding just `sampleOrder` under `fixPid`. -/
def fixOrders : List (String × Order) := [(fixPid, sampleOrder)]

end Rama

namespace Rama

/- ------------------------------------------------------------------ -/
/- C1: phone validation                                                -/
/- ------------------------------------------------------------------ -/

/-- **C1 (counterexample).** The claim says every input that is not of the
two displayed phone shapes is rejected — in particular no string that is
not a valid Syrian phone number is accepted.  But `validate_phone` checks
only prefix and length: `"+963zzzzzzzz"` (length 12, starts with `+963`,
all letters after the prefix) is accepted and returned unchanged, though
it is visibly not a phone number and not of the shape `+963912345678`. -/
theorem validate_phone_accepts_letters :
    validate_phone "+963zzzzzzzz" = Except.ok "+963zzzzzzzz" ∧
    "zzzzzzzz".data.all Char.isAlpha = true ∧
    "+963zzzzzzzz" ≠ "+963912345678" := by
  refine ⟨rfl, by decide, by decide⟩

/-- **C1 (amended).** Phone validation is a prefix-and-length check on the
trimmed input: a trimmed string starting with `"+963"` of length 12 or 13
is accepted unchanged; otherwise one starting with `"09"` of length 10 is
normalized to `"+963"` followed by its tail (so `"0912345678"` becomes
`"+963912345678"`); every other input is rejected.  Digits are not
checked, so acceptance is strictly wider than the set of valid Syrian
phone numbers. -/
theorem validate_phone_spec (v : String) :
    (pyStartsWith (pyStrip v) "+963" = true →
      (pyLen (pyStrip v) = 12 ∨ pyLen (pyStrip v) = 13) →
      validate_phone v = Except.ok (pyStrip v)) ∧
    (pyStartsWith (pyStrip v) "09" = true → pyLen (pyStrip v) = 10 →
      validate_phone v = Except.ok ("+963" ++ pyDrop (pyStrip v) 1)) ∧
    ((pyStartsWith (pyStrip v) "+963" = false ∨
        (pyLen (pyStrip v) ≠ 12 ∧ pyLen (pyStrip v) ≠ 13)) →
      (pyStartsWith (pyStrip v) "09" = false ∨ pyLen (pyStrip v) ≠ 10) →
      validate_phone v =
        Except.error "Phone must be in Syrian format starting with +963 or 09") := by
  refine ⟨?_, ?_, ?_⟩
  · intro h1 h2
    have hc : (pyStartsWith (pyStrip v) "+963" &&
        (pyLen (pyStrip v) == 12 || pyLen (pyStrip v) == 13)) = true := by
      rcases h2 with h | h <;> simp [h1, h]
    simp [validate_phone, hc]
  · intro h1 h2
    have hp : (pyStartsWith (pyStrip v) "+963" &&
        (pyLen (pyStrip v) == 12 || pyLen (pyStrip v) == 13)) = false := by
      simp [h2]
    have hq : (pyStartsWith (pyStrip v) "09" && pyLen (pyStrip v) == 10) = true := by
      simp [h1, h2]
    simp [validate_phone, hp, hq]
  · intro h1 h2
    have hp : (pyStartsWith (pyStrip v) "+963" &&
        (pyLen (pyStrip v) == 12 || pyLen (pyStrip v) == 13)) = false := by
      rcases h1 with h | ⟨ha, hb⟩ <;> simp [*]
    have hq : (pyStartsWith (pyStrip v) "09" && pyLen (pyStrip v) == 10) = false := by
      rcases h2 with h | h <;> simp [*]
    simp [validate_phone, hp, hq]

/-- **C1 (witness).** `validate_phone_spec` applied to `"0912345678"`:
the `09`-branch normalizes it to `"+963912345678"`. -/
theorem validate_phone_spec_witness :
    validate_phone "0912345678" = Except.ok "+963912345678" :=
  (validate_phone_spec "0912345678").2.1 (by decide) (by decide)

/- ------------------------------------------------------------------ -/
/- C2: order creation with an unresolvable product id                  -/
/- ------------------------------------------------------------------ -/

/-- **C2 (code bug).** The claim — and §7 of the spec, which files
malformed identifiers under InvalidInput → 400 — requires order creation
to fail with InvalidInput whenever an item's product id does not resolve.
For the structurally malformed id `"abc"` the handler instead dies in
`ObjectId(it.product_id)` with an uncaught `bson.errors.InvalidId`
(HTTP 500, a server error).  The store is still unchanged: the exception
is raised before any insert. -/
theorem create_order_malformed_id_crashes :
    create_order dbOneProduct bodyBadItem 0 fixPid =
      Except.error (ApiError.serverError "bson.errors.InvalidId") ∧
    applyOrderOp dbOneProduct (OrderOp.create bodyBadItem 0 fixPid) = dbOneProduct := by
  exact ⟨rfl, rfl⟩

/- ------------------------------------------------------------------ -/
/- C3: seeding                                                         -/
/- ------------------------------------------------------------------ -/

/-- For a non-negative rate every seed row passes the `ProductSchema`
constraints. -/
theorem seedRows_valid (rate : Int) (now : Nat) (h : 0 ≤ rate) :
    (seedRows rate now).all productSchemaOk = true := by
  have hr : (0:ℚ) ≤ (rate:ℚ) := by exact_mod_cast h
  have h1 : (0:ℚ) ≤ 5/2 * (rate:ℚ) := mul_nonneg (by norm_num) hr
  have h2 : (0:ℚ) ≤ 3/2 * (rate:ℚ) := mul_nonneg (by norm_num) hr
  have t1 : (0:Int) ≤ truncQ (5/2 * (rate:ℚ)) := by
    rw [truncQ, if_pos h1]
    exact Int.le_floor.mpr (by exact_mod_cast h1)
  have t2 : (0:Int) ≤ truncQ (3/2 * (rate:ℚ)) := by
    rw [truncQ, if_pos h2]
    exact Int.le_floor.mpr (by exact_mod_cast h2)
  have u1 : (0:ℚ) ≤ 5/2 := by norm_num
  have u2 : (0:ℚ) ≤ 3/2 := by norm_num
  simp [seedRows, productSchemaOk, CategoryValues, priced, t1, t2, u1, u2]

/-- For a negative rate the first seed row already violates the
`price_syp ≥ 0` floor, so the schema validation fails. -/
theorem seedRows_invalid (rate : Int) (now : Nat) (h : rate < 0) :
    (seedRows rate now).all productSchemaOk = false := by
  have hz : rate ≤ -1 := by omega
  have hr : (rate:ℚ) ≤ -1 := by exact_mod_cast hz
  have h1 : (5/2 : ℚ) * (rate:ℚ) < 0 := by nlinarith
  have hneg : truncQ ((5/2:ℚ) * (rate:ℚ)) < 0 := by
    rw [truncQ, if_neg (not_le.mpr h1)]
    have hceil : ⌈(5/2:ℚ) * (rate:ℚ)⌉ ≤ -1 := Int.ceil_le.mpr (by push_cast; nlinarith)
    omega
  have hd : ¬ (0:Int) ≤ truncQ ((5/2:ℚ) * (rate:ℚ)) := not_le.mpr hneg
  simp [seedRows, productSchemaOk, CategoryValues, priced, hd]

/-- **C3 (counterexample).** With the environment-provided exchange rate
15001, seeding succeeds (the rate is non-negative, so every row passes
the schema validation) and the seeded bracelet (`price_usd = 1.5`) is
stored with `price_syp = int(1.5 * 15001) = 22501`, while the claim's
`round(price_usd × exchange_rate)` is `round(22501.5) = 22502` (under
round-half-up and also under Python's round-half-to-even).  The code
truncates; it does not round. -/
theorem seed_price_truncates_not_rounds :
    seed_products {} 15001 false 0 genIdA =
      Except.ok (seededDB {} 15001 0 genIdA, "seeded", 5) ∧
    (seededDB {} 15001 0 genIdA).products.map Prod.snd = seedRows 15001 0 ∧
    ((seedRows 15001 0).map (fun p => (p.price_usd, p.price_syp)))[2]? =
      some ((3/2 : ℚ), (22501 : Int)) ∧
    round ((3/2 : ℚ) * 15001) = (22502 : Int) ∧
    (22501 : Int) ≠ 22502 := by
  have h32 : truncQ ((3/2 : ℚ) * 15001) = 22501 := by
    rw [truncQ, if_pos (by norm_num)]
    rw [Int.floor_eq_iff (α := ℚ)]
    constructor <;> norm_num
  refine ⟨?_, ?_, ?_, ?_, by decide⟩
  · have hvalid := seedRows_valid 15001 0 (by decide)
    simp [seed_products, hvalid]
    simp [seedRows]
  · simp [seededDB, List.map_map, Function.comp]
    exact List.enum_map_snd _
  · simp [seedRows, priced, h32]
  · rw [round_eq, Int.floor_eq_iff (α := ℚ)]
    constructor <;> norm_num

/-- **C3 (amended).** Seeding behaves as claimed except for the rounding
mode and an error path the claim omits: if the catalog is non-empty and
force is not set it is a no-op reporting the existing count; otherwise,
for a non-negative exchange rate, it replaces the full catalog with
exactly the 5 demonstration documents, in which
`price_syp = trunc(price_usd × exchange_rate)` (truncation toward zero,
Python's `int()`, not `round`) for every item, and both price fields are
0 for the unpriced item; for a negative environment rate the
`ProductSchema` validation (`price_syp ≥ 0`) fails before any write, so
the handler raises (HTTP 500) and the catalog is untouched.  (The float
product is exact for these values at any realistic integer rate, so the
rational model agrees with the code.) -/
theorem seed_products_spec (d : DB) (rate : Int) (force : Bool) (now : Nat)
    (gen : Nat → String) :
    (0 < d.products.length → force = false →
      seed_products d rate force now gen = Except.ok (d, "exists", d.products.length)) ∧
    (d.products.length = 0 ∨ force = true → 0 ≤ rate →
      seed_products d rate force now gen =
        Except.ok (seededDB d rate now gen, "seeded", 5) ∧
      (seededDB d rate now gen).products.map Prod.snd = seedRows rate now ∧
      (seedRows rate now).length = 5 ∧
      (∀ p ∈ (seededDB d rate now gen).products,
        p.2.price_syp = truncQ (p.2.price_usd * (rate : ℚ))) ∧
      (∃ p ∈ seedRows rate now, p.price_usd = 0 ∧ p.price_syp = 0) ∧
      (seededDB d rate now gen).users = d.users ∧
      (seededDB d rate now gen).orders = d.orders) ∧
    (d.products.length = 0 ∨ force = true → rate < 0 →
      seed_products d rate force now gen =
        Except.error (ApiError.serverError "pydantic.ValidationError")) := by
  refine ⟨?_, ?_, ?_⟩
  · intro h1 h2
    have hc : (decide (0 < d.products.length) && !force) = true := by
      simp [h1, h2]
    simp [seed_products, hc]
  · intro h hrate
    have hc : (decide (0 < d.products.length) && !force) = false := by
      rcases h with h | h <;> simp [h]
    have hvalid := seedRows_valid rate now hrate
    have hmap : (seededDB d rate now gen).products.map Prod.snd
        = seedRows rate now := by
      simp [seededDB, List.map_map, Function.comp]
      exact List.enum_map_snd _
    refine ⟨by simp [seed_products, hc, hvalid]; simp [seedRows], hmap,
      by simp [seedRows],
      ?_, ?_, by simp [seededDB], by simp [seededDB]⟩
    · intro p hp
      have hp2 : p.2 ∈ seedRows rate now := by
        rw [← hmap]
        exact List.mem_map_of_mem Prod.snd hp
      simp only [seedRows, List.mem_cons, List.mem_singleton,
        List.not_mem_nil, or_false] at hp2
      rcases hp2 with h | h | h | h | h <;> rw [h] <;> simp [priced, truncQ]
    · exact ⟨(seedRows rate now).getLast (by simp [seedRows]),
        by simp [seedRows, List.getLast], by simp [seedRows, List.getLast, priced]⟩
  · intro h hrate
    have hc : (decide (0 < d.products.length) && !force) = false := by
      rcases h with h | h <;> simp [h]
    have hinvalid := seedRows_invalid rate now hrate
    simp [seed_products, hc, hinvalid]

/-- **C3 (witness).** `seed_products_spec` at an empty catalog with the
default non-negative rate (seeds 5 documents) and at a non-empty catalog
without force (no-op reporting the existing count). -/
theorem seed_products_spec_witness :
    seed_products {} 15000 false 0 genIdA =
      Except.ok (seededDB {} 15000 0 genIdA, "seeded", 5) ∧
    seed_products dbOneProduct 15000 false 0 genIdA =
      Except.ok (dbOneProduct, "exists", 1) := by
  constructor
  · exact ((seed_products_spec {} 15000 false 0 genIdA).2.1 (Or.inl rfl) (by decide)).1
  · exact (seed_products_spec dbOneProduct 15000 false 0 genIdA).1 (by decide) rfl

/- ------------------------------------------------------------------ -/
/- C4: order status update                                             -/
/- ------------------------------------------------------------------ -/

/-- **C4 (counterexample).** The claim says an order id matching no stored
order fails with NotFound.  The id `"bad"` matches no stored order (the
store is empty), and the requested status `"Pending"` is in the enum, yet
the handler dies in `ObjectId(order_id)` with an uncaught
`bson.errors.InvalidId` — an HTTP 500 server error, not NotFound. -/
theorem update_order_status_malformed_id_not_notFound :
    update_order_status [] "bad" { status := "Pending" } 1 =
      Except.error (ApiError.serverError "bson.errors.InvalidId") := rfl

/-- The order that a successful `PATCH /api/orders/{id}/status` writes:
status and `updated_at` always; `admin_note` and
`expected_delivery_date` only when provided; all other fields kept. -/
def updatedOrder (o : Order) (body : StatusUpdateIn) (now : Nat) : Order :=
  { o with
    status := body.status,
    updated_at := now,
    admin_note := match body.admin_note with
      | some n => some n
      | none => o.admin_note,
    expected_delivery_date := match body.expected_delivery_date with
      | some dd => some dd
      | none => o.expected_delivery_date }

/-- **C4 (amended).** A status outside the fixed enum fails with
InvalidInput; a *structurally valid* order id matching no stored order
fails with NotFound (a malformed id instead escapes as a server error,
see the counterexample); otherwise the operation stores and returns the
order with the new status, the new update timestamp intact, exactly the
provided optional fields set, and every other field unchanged. -/
theorem update_order_status_spec (orders : List (String × Order))
    (order_id : String) (body : StatusUpdateIn) (now : Nat) :
    (allowed.contains body.status = false →
      update_order_status orders order_id body now =
        Except.error (ApiError.invalidInput "Invalid status")) ∧
    (allowed.contains body.status = true → isValidObjectId order_id = true →
      (orders.find? (fun po => po.1 == order_id)) = none →
      update_order_status orders order_id body now =
        Except.error (ApiError.notFound "Order not found")) ∧
    (∀ o, allowed.contains body.status = true → isValidObjectId order_id = true →
      (orders.find? (fun po => po.1 == order_id)).map Prod.snd = some o →
      update_order_status orders order_id body now =
        Except.ok (replaceFirstOrder orders order_id (updatedOrder o body now),
          updatedOrder o body now) ∧
      (updatedOrder o body now).status = body.status ∧
      (updatedOrder o body now).updated_at = now ∧
      (updatedOrder o body now).admin_note =
        (match body.admin_note with | some n => some n | none => o.admin_note) ∧
      (updatedOrder o body now).expected_delivery_date =
        (match body.expected_delivery_date with
         | some dd => some dd | none => o.expected_delivery_date) ∧
      (updatedOrder o body now).user_phone = o.user_phone ∧
      (updatedOrder o body now).user_name = o.user_name ∧
      (updatedOrder o body now).items = o.items ∧
      (updatedOrder o body now).address = o.address ∧
      (updatedOrder o body now).city = o.city ∧
      (updatedOrder o body now).notes = o.notes ∧
      (updatedOrder o body now).created_at = o.created_at) := by
  refine ⟨?_, ?_, ?_⟩
  · intro h1
    unfold update_order_status
    rw [h1]
    rfl
  · intro h1 h2 h3
    unfold update_order_status
    rw [h1, h2, h3]
    rfl
  · intro o h1 h2 h3
    refine ⟨?_, rfl, rfl, rfl, rfl, rfl, rfl, rfl, rfl, rfl, rfl, rfl⟩
    unfold update_order_status
    rw [h1, h2, h3]
    rfl

/-- **C4 (witness).** `update_order_status_spec` at a one-order store, a
valid id and a valid status with an admin note provided. -/
theorem update_order_status_spec_witness :
    update_order_status fixOrders fixPid
        { status := "Confirmed", admin_note := some "call first" } 9 =
      Except.ok (replaceFirstOrder fixOrders fixPid
          (updatedOrder sampleOrder
            { status := "Confirmed", admin_note := some "call first" } 9),
        updatedOrder sampleOrder
          { status := "Confirmed", admin_note := some "call first" } 9) :=
  ((update_order_status_spec fixOrders fixPid
      { status := "Confirmed", admin_note := some "call first" } 9).2.2
    sampleOrder (by decide) (by decide) (by decide)).1

/- ------------------------------------------------------------------ -/
/- C6: catalog lookup                                                  -/
/- ------------------------------------------------------------------ -/

/-- **C6 (code bug).** A structurally valid id matching no product does
fail with NotFound, but the claim (and §4.2 of the spec: the failure
"should still surface as a client error, not a crash") also requires a
malformed id to be a client error.  `get_product` calls
`ObjectId(product_id)` unguarded, so `"abc"` raises an uncaught
`bson.errors.InvalidId` — an HTTP 500 crash, not a client error. -/
theorem get_product_malformed_id_crashes :
    get_product dbOneProduct "abc" =
      Except.error (ApiError.serverError "bson.errors.InvalidId") ∧
    get_product dbOneProduct "bbbbbbbbbbbbbbbbbbbbbbbb" =
      Except.error (ApiError.notFound "Product not found") := ⟨rfl, rfl⟩

/- ------------------------------------------------------------------ -/
/- C7: user created on first address addition                          -/
/- ------------------------------------------------------------------ -/

/-- The user document `add_address` inserts when no user exists for the
path phone. -/
def newUserFor (phone : String) (addr : Address) (now : Nat) : User :=
  { phone := phone, name := addr.full_name, addresses := [addr],
    is_active := true, created_at := now, updated_at := now }

/-- **C7 (counterexample).** The claim says the created user's stored
phone equals the normalized phone of the address body.  Submitting the
body phone `"0912345678"` under the path phone `"0912345678"` creates a
user whose stored phone is the raw path value `"0912345678"`, while the
body's normalized phone is `"+963912345678"` — they differ. -/
theorem add_address_new_user_raw_phone :
    add_address [] "0912345678" addrBody 3 =
      Except.ok [newUserFor "0912345678" { addrBody with phone := "+963912345678" } 3] ∧
    (newUserFor "0912345678" { addrBody with phone := "+963912345678" } 3).phone =
      "0912345678" ∧
    validate_phone addrBody.phone = Except.ok "+963912345678" ∧
    "0912345678" ≠ "+963912345678" :=
  ⟨rfl, rfl, rfl, by decide⟩

/-- **C7 (amended).** When no user exists for the path phone, the created
user carries the submitted address's name, the *path* phone exactly as
given (not the body's normalized phone), and a single-element address
list holding the validated (phone-normalized) address body. -/
theorem add_address_new_user_spec (users : List User) (phone : String)
    (body : Address) (now : Nat) (p : String)
    (hp : validate_phone body.phone = Except.ok p)
    (hu : users.find? (fun u => u.phone == phone) = none) :
    add_address users phone body now =
      Except.ok (users ++ [newUserFor phone { body with phone := p } now]) ∧
    (newUserFor phone { body with phone := p } now).name = body.full_name ∧
    (newUserFor phone { body with phone := p } now).phone = phone ∧
    (newUserFor phone { body with phone := p } now).addresses =
      [{ body with phone := p }] := by
  refine ⟨?_, rfl, rfl, rfl⟩
  simp [add_address, hp, hu, newUserFor]

/-- **C7 (witness).** `add_address_new_user_spec` on an empty user store. -/
theorem add_address_new_user_spec_witness :
    add_address [] "0998765432" addrBody 4 =
      Except.ok [newUserFor "0998765432" { addrBody with phone := "+963912345678" } 4] :=
  (add_address_new_user_spec [] "0998765432" addrBody 4 "+963912345678" rfl rfl).1

/- ------------------------------------------------------------------ -/
/- C5: address deduplication                                           -/
/- ------------------------------------------------------------------ -/

/-- After replacing the first user stored under `phone`, looking that
phone up finds the replacement (provided the replacement still carries a
matching phone). -/
theorem find?_replaceFirstUser (users : List User) (phone : String) (u' : User)
    (hm : (users.find? (fun w => w.phone == phone)).isSome = true)
    (h' : (u'.phone == phone) = true) :
    (replaceFirstUser users phone u').find? (fun w => w.phone == phone) = some u' := by
  induction users with
  | nil => simp [List.find?] at hm
  | cons w ws ih =>
    by_cases hw : (w.phone == phone) = true
    · simp [replaceFirstUser, hw, List.find?, h']
    · have hw' : (w.phone == phone) = false := by
        simpa using hw
      simp only [replaceFirstUser, hw', Bool.false_eq_true, if_false]
      rw [List.find?] at hm ⊢
      rw [hw'] at hm ⊢
      exact ih hm

/-- **C5 (confirmed).** Address deduplication keys on the (phone, street)
pair only: when some stored address of the existing user matches the
submitted (normalized) phone and street, the handler leaves the user
store — and hence the address-list length — entirely unchanged,
regardless of any differing city or notes; when every stored address
differs in phone or street, the handler stores the user with the
validated address appended and the update timestamp refreshed. -/
theorem add_address_dedup (users : List User) (phone : String) (body : Address)
    (now : Nat) (u : User) (p : String)
    (hp : validate_phone body.phone = Except.ok p)
    (hu : users.find? (fun w => w.phone == phone) = some u) :
    (u.addresses.any (fun a => a.phone == p && a.street == body.street) = true →
      add_address users phone body now = Except.ok users) ∧
    (u.addresses.any (fun a => a.phone == p && a.street == body.street) = false →
      add_address users phone body now =
        Except.ok (replaceFirstUser users phone
          { u with addresses := u.addresses ++ [{ body with phone := p }],
                   updated_at := now }) ∧
      (replaceFirstUser users phone
          { u with addresses := u.addresses ++ [{ body with phone := p }],
                   updated_at := now }).find? (fun w => w.phone == phone) =
        some { u with addresses := u.addresses ++ [{ body with phone := p }],
                      updated_at := now }) := by
  have hup : (u.phone == phone) = true := by
    have h := List.find?_some hu
    simpa using h
  have hred : add_address users phone body now =
      (if (u.addresses.any fun a => a.phone == p && a.street == body.street) = true
       then Except.ok users
       else Except.ok (replaceFirstUser users phone
         { u with addresses := u.addresses ++ [{ body with phone := p }],
                  updated_at := now })) := by
    unfold add_address
    rw [hp, hu]
    rfl
  constructor
  · intro hdup
    rw [hred, hdup]
    rfl
  · intro hdup
    refine ⟨by rw [hred, hdup]; rfl, ?_⟩
    exact find?_replaceFirstUser users phone _ (by rw [hu]; rfl) hup

/-- **C5 (witness).** `add_address_dedup` at a one-user store: the same
(phone, street) pair with a different city is dropped. -/
theorem add_address_dedup_witness :
    add_address [newUserFor "0912345678" { addrBody with phone := "+963912345678" } 3]
        "0912345678" { addrBody with city := "Aleppo" } 8 =
      Except.ok [newUserFor "0912345678" { addrBody with phone := "+963912345678" } 3] :=
  (add_address_dedup
    [newUserFor "0912345678" { addrBody with phone := "+963912345678" } 3]
    "0912345678" { addrBody with city := "Aleppo" } 8
    (newUserFor "0912345678" { addrBody with phone := "+963912345678" } 3)
    "+963912345678" rfl rfl).1 (by decide)

/- ------------------------------------------------------------------ -/
/- C9: order-status invariant                                          -/
/- ------------------------------------------------------------------ -/

/-- A successful order creation appends exactly one order, and it has
status `"Pending COD"`. -/
theorem create_order_ok_orders (d : DB) (body : OrderCreateIn) (now : Nat)
    (oid : String) (d' : DB) (x y : String)
    (h : create_order d body now oid = Except.ok (d', x, y)) :
    ∃ ord : Order, d'.orders = d.orders ++ [(oid, ord)] ∧
      ord.status = "Pending COD" := by
  unfold create_order at h
  cases hb : buildItems d.products body.items with
  | error e =>
    rw [hb] at h
    exact Except.noConfusion h
  | ok items =>
    rw [hb] at h
    cases hv : validate_phone body.phone with
    | error e =>
      rw [hv] at h
      exact Except.noConfusion h
    | ok p =>
      rw [hv] at h
      have h2 : (Except.ok (createdDB d body now oid items p, oid, "Pending COD")
            : Except ApiError (DB × String × String)) =
          Except.ok (d', x, y) := h
      simp only [Except.ok.injEq, Prod.mk.injEq] at h2
      obtain ⟨hd, hx, hy⟩ := h2
      subst hd
      exact ⟨createdOrder body items p now, rfl, rfl⟩

/-- A successful status update replaces one order in place with the new
status, which passed the whitelist. -/
theorem update_order_status_ok (orders : List (String × Order))
    (order_id : String) (body : StatusUpdateIn) (now : Nat)
    (os' : List (String × Order)) (o' : Order)
    (h : update_order_status orders order_id body now = Except.ok (os', o')) :
    os' = replaceFirstOrder orders order_id o' ∧ o'.status = body.status ∧
    allowed.contains body.status = true := by
  unfold update_order_status at h
  cases h1 : allowed.contains body.status with
  | false =>
    rw [h1] at h
    exact absurd h (by simp)
  | true =>
    rw [h1] at h
    cases h2 : isValidObjectId order_id with
    | false =>
      rw [h2] at h
      exact absurd h (by simp)
    | true =>
      rw [h2] at h
      cases h3 : (orders.find? (fun po => po.1 == order_id)).map Prod.snd with
      | none =>
        rw [h3] at h
        exact absurd h (by simp)
      | some o =>
        rw [h3] at h
        simp only [Bool.not_true, Bool.false_eq_true, if_false,
          Except.ok.injEq, Prod.mk.injEq] at h
        obtain ⟨hos, ho⟩ := h
        subst ho
        exact ⟨hos.symm, rfl, rfl⟩

/-- Membership after an in-place replacement: every element was already
there, or is the replacement. -/
theorem mem_replaceFirstOrder (orders : List (String × Order)) (k : String)
    (no : Order) (o : String × Order)
    (ho : o ∈ replaceFirstOrder orders k no) : o ∈ orders ∨ o.2 = no := by
  induction orders with
  | nil => simp [replaceFirstOrder] at ho
  | cons w ws ih =>
    by_cases hw : (w.1 == k) = true
    · simp only [replaceFirstOrder, hw, if_true, List.mem_cons] at ho
      rcases ho with h | h
      · right
        rw [h]
      · left
        exact List.mem_cons_of_mem _ h
    · have hw' : (w.1 == k) = false := by simpa using hw
      simp only [replaceFirstOrder, hw', Bool.false_eq_true, if_false,
        List.mem_cons] at ho
      rcases ho with h | h
      · left
        exact h ▸ List.mem_cons_self _ _
      · rcases ih h with h' | h'
        · left
          exact List.mem_cons_of_mem _ h'
        · right
          exact h'

/-- **C9 (confirmed).** Every write to the order collection preserves the
invariant that each stored order's status lies in the fixed
`OrderStatus` enum: creation writes `"Pending COD"`, and a status update
only stores a value that passed the `allowed` whitelist — which is the
same set. -/
theorem order_status_invariant (d : DB) (op : OrderOp)
    (h : ∀ o ∈ d.orders, o.2.status ∈ OrderStatusValues) :
    ∀ o ∈ (applyOrderOp d op).orders, o.2.status ∈ OrderStatusValues := by
  cases op with
  | create body now oid =>
    intro o ho
    simp only [applyOrderOp] at ho
    cases hc : create_order d body now oid with
    | error e =>
      rw [hc] at ho
      exact h o ho
    | ok r =>
      rw [hc] at ho
      obtain ⟨d', x, y⟩ := r
      obtain ⟨ord, hord, hst⟩ := create_order_ok_orders d body now oid d' x y hc
      rw [hord] at ho
      rcases List.mem_append.mp ho with hm | hm
      · exact h o hm
      · have : o.2 = ord := by
          rcases List.mem_singleton.mp hm with rfl
          rfl
        rw [this, hst]
        simp [OrderStatusValues]
  | updateStatus oid body now =>
    intro o ho
    simp only [applyOrderOp] at ho
    cases hc : update_order_status d.orders oid body now with
    | error e =>
      rw [hc] at ho
      exact h o ho
    | ok r =>
      rw [hc] at ho
      obtain ⟨os', o'⟩ := r
      obtain ⟨hos, hst, hallow⟩ :=
        update_order_status_ok d.orders oid body now os' o' hc
      rw [hos] at ho
      rcases mem_replaceFirstOrder d.orders oid o' o ho with hm | hm
      · exact h o hm
      · rw [hm, hst]
        have hmem : body.status ∈ allowed := by
          simpa using hallow
        simp only [allowed, List.mem_cons, List.mem_singleton,
          List.not_mem_nil, or_false] at hmem
        rcases hmem with h' | h' | h' | h' | h' | h' <;> rw [h'] <;>
          simp [OrderStatusValues]

/-- **C9 (witness).** `order_status_invariant` on a one-order store across
a successful creation: the pre-existing order still satisfies the
invariant in the post-store. -/
theorem order_status_invariant_witness :
    (fixPid, sampleOrder).2.status ∈ OrderStatusValues :=
  order_status_invariant { products := [], users := [], orders := fixOrders }
    (OrderOp.updateStatus fixPid { status := "Shipped" } 2)
    (by intro o ho
        simp only [fixOrders, List.mem_singleton] at ho
        rw [ho]
        simp [sampleOrder, OrderStatusValues])
    (fixPid, sampleOrder)
    (by simp [applyOrderOp, update_order_status, allowed, fixOrders])

/- ------------------------------------------------------------------ -/
/- C10: item snapshots are total, image is optional                    -/
/- ------------------------------------------------------------------ -/

/-- **C10 (confirmed).** When every requested item carries a structurally
valid product id that resolves to a stored product, building the item
snapshots never fails: it returns one snapshot per item, in order, whose
`image` is the referenced product's first image when the image list is
non-empty and `None` when it is empty (or absent, which the document
model renders as the empty list) — the `(prod.get("images") or
[None])[0]` expression is total. -/
theorem build_items_total (ps : List (String × Product)) (items : List OrderItemIn)
    (h : ∀ it ∈ items, isValidObjectId it.product_id = true ∧
      (findById ps it.product_id).isSome = true) :
    ∃ out, buildItems ps items = Except.ok out ∧
      out.length = items.length ∧
      ∀ i : Nat, ∀ h1 : i < items.length, ∀ h2 : i < out.length, ∃ prod,
        findById ps (items.get ⟨i, h1⟩).product_id = some prod ∧
        (out.get ⟨i, h2⟩).image = prod.images.head? ∧
        (out.get ⟨i, h2⟩).product_id = (items.get ⟨i, h1⟩).product_id ∧
        (out.get ⟨i, h2⟩).quantity = (items.get ⟨i, h1⟩).quantity ∧
        (out.get ⟨i, h2⟩).name = prod.name ∧
        (out.get ⟨i, h2⟩).category = prod.category ∧
        (out.get ⟨i, h2⟩).price_syp = prod.price_syp ∧
        (out.get ⟨i, h2⟩).price_usd = prod.price_usd := by
  induction items with
  | nil =>
    refine ⟨[], rfl, rfl, ?_⟩
    intro i h1
    exact absurd h1 (by simp)
  | cons it rest ih =>
    obtain ⟨hvalid, hsome⟩ := h it (List.mem_cons_self it rest)
    obtain ⟨prod, hprod⟩ := Option.isSome_iff_exists.mp hsome
    obtain ⟨out, hout, hlen, hfields⟩ :=
      ih (fun x hx => h x (List.mem_cons_of_mem it hx))
    refine ⟨{ product_id := it.product_id, name := prod.name,
              category := prod.category, quantity := it.quantity,
              price_syp := prod.price_syp, price_usd := prod.price_usd,
              image := prod.images.head? } :: out,
      ?_, by simpa using hlen, ?_⟩
    · unfold buildItems
      rw [hvalid, hprod, hout]
      rfl
    · intro i h1 h2
      cases i with
      | zero => exact ⟨prod, hprod, rfl, rfl, rfl, rfl, rfl, rfl, rfl⟩
      | succ j =>
        have hj1 : j < rest.length := by simpa using h1
        have hj2 : j < out.length := by simpa using h2
        exact hfields j hj1 hj2

/-- **C10 (witness).** `build_items_total` at a store whose only product
has an empty image list: the snapshot succeeds with `image = none`. -/
theorem build_items_total_witness :
    (buildItems dbOneProduct.products
      [{ product_id := fixPid, quantity := 2 }]).isOk = true := by
  obtain ⟨out, hout, _, _⟩ := build_items_total dbOneProduct.products
    [{ product_id := fixPid, quantity := 2 }]
    (by intro it hit
        simp only [List.mem_singleton] at hit
        rw [hit]
        exact ⟨by decide, by decide⟩)
  rw [hout]
  rfl

/- ------------------------------------------------------------------ -/
/- C8: catalog listing with a search string                            -/
/- ------------------------------------------------------------------ -/

/-- On a pattern of plain literals, anchored matching is case-folded
list-prefix. -/
theorem matchHere_lit (cs t : List Char) :
    matchHere (cs.map RTok.lit) t = true ↔
      cs.map Char.toLower <+: t.map Char.toLower := by
  induction cs generalizing t with
  | nil => simp [matchHere]
  | cons c cs ih =>
    cases t with
    | nil => simp [matchHere, List.prefix_nil]
    | cons d t => simp [matchHere, tokMatch, List.cons_prefix_cons, ih]

/-- On a pattern of plain literals, unanchored matching is case-folded
list-infix, i.e. case-insensitive substring containment. -/
theorem regexFind_lit (cs t : List Char) :
    regexFind (cs.map RTok.lit) t = true ↔
      cs.map Char.toLower <:+: t.map Char.toLower := by
  induction t with
  | nil => simp [regexFind, matchHere_lit, List.prefix_nil, List.infix_nil]
  | cons d t ih =>
    rw [regexFind, Bool.or_eq_true, matchHere_lit, ih, List.map_cons,
      List.infix_cons_iff]

/-- Sorting only permutes; membership in the listing result is membership
in the filtered set. -/
theorem mem_sortProducts (so : Option String) (ps : List (String × Product))
    (pr : String × Product) : pr ∈ sortProducts so ps ↔ pr ∈ ps := by
  cases so with
  | none => simp [sortProducts]
  | some s =>
    unfold sortProducts
    by_cases hs : (s != "") = true
    · simp only [hs, if_true]
      cases hfd : (sort_map.find? (fun kv => kv.1 == s)).map Prod.snd with
      | none => exact Iff.rfl
      | some fd => exact (List.mergeSort_perm ps _).mem_iff
    · have hs' : (s != "") = false := by simpa using hs
      simp only [hs', Bool.false_eq_true, if_false]

/-- **C8 (counterexample).** The search string is passed to the store as a
regular expression, not as a literal substring.  With the catalog's only
product named `"abc"`, the search string `"."` (a regex metacharacter
matching any character) returns the product, although `"."` does not
occur in `"abc"` as a (case-insensitive) substring — refuting the claim
for search strings containing metacharacters. -/
theorem list_products_regex_counterexample :
    ((list_products dbOneProduct { search := some "." }).1.map
        (fun pr => pr.2.name)) = ["abc"] ∧
    substrCI "." "abc" = false := ⟨rfl, rfl⟩

/-- **C8 (amended).** For every search string free of regex
metacharacters, the returned set is exactly as claimed: the products
whose name contains the search string as a case-insensitive substring,
intersected (logical AND) with the category/featured/new_arrival equality
filters.  (For strings with metacharacters the name condition is regex
matching instead, see the counterexample.  The empty-string guards mirror
the handler's Python truthiness checks.) -/
theorem list_products_search_spec (d : DB) (q : ListQuery) (s : String)
    (hs : q.search = some s) (hne : s ≠ "")
    (hmeta : ∀ c ∈ s.data, c ∉ regexMetaChars)
    (hcat : ∀ c, q.category = some c → c ≠ "") :
    ∀ pr, pr ∈ (list_products d q).1 ↔
      (pr ∈ d.products ∧
       (∀ c, q.category = some c → pr.2.category = c) ∧
       (∀ b, q.featured = some b → pr.2.featured = b) ∧
       (∀ b, q.new_arrival = some b → pr.2.new_arrival = b) ∧
       substrCI s pr.2.name = true) := by
  intro pr
  have hsB : (s != "") = true := by simpa using hne
  have hparse : parseSearchPattern s = s.data.map RTok.lit := by
    unfold parseSearchPattern
    apply List.map_congr_left
    intro c hc
    have hdot : c ≠ '.' := by
      intro hcontra
      exact hmeta c hc (by rw [hcontra]; simp [regexMetaChars])
    simp [hdot]
  have hsearch : regexMatchI s pr.2.name = true ↔ substrCI s pr.2.name = true := by
    rw [regexMatchI, hparse, regexFind_lit, substrCI]
    simp
  have hq : matchesQuery q pr.2 = true ↔
      (matchesEqFilters q pr.2 = true ∧ regexMatchI s pr.2.name = true) := by
    rw [matchesQuery, hs]
    simp [hsB, Bool.and_eq_true]
  have heq : matchesEqFilters q pr.2 = true ↔
      ((∀ c, q.category = some c → pr.2.category = c) ∧
       (∀ b, q.featured = some b → pr.2.featured = b) ∧
       (∀ b, q.new_arrival = some b → pr.2.new_arrival = b)) := by
    unfold matchesEqFilters
    cases hcq : q.category with
    | none =>
      cases hf : q.featured with
      | none => cases hn : q.new_arrival with
        | none => simp
        | some b2 => simp
      | some b1 => cases hn : q.new_arrival with
        | none => simp
        | some b2 => simp [and_assoc]
    | some c =>
      have hcne : (c != "") = true := by simpa using hcat c hcq
      cases hf : q.featured with
      | none => cases hn : q.new_arrival with
        | none => simp [hcne]
        | some b2 => simp [hcne, and_assoc]
      | some b1 => cases hn : q.new_arrival with
        | none => simp [hcne, and_assoc]
        | some b2 => simp [hcne, and_assoc]
  unfold list_products
  rw [mem_sortProducts, List.mem_filter, hq, heq, hsearch]
  tauto

/-- **C8 (witness).** `list_products_search_spec` at the one-product
store, the metacharacter-free search `"AB"` (matching `"abc"` case
insensitively) combined with a category filter. -/
theorem list_products_search_spec_witness :
    (fixPid, sampleProduct) ∈
      (list_products dbOneProduct
        { category := some "rings", search := some "AB" }).1 ↔
      ((fixPid, sampleProduct) ∈ dbOneProduct.products ∧
       (∀ c, (some "rings" : Option String) = some c → sampleProduct.category = c) ∧
       (∀ b, (none : Option Bool) = some b → sampleProduct.featured = b) ∧
       (∀ b, (none : Option Bool) = some b → sampleProduct.new_arrival = b) ∧
       substrCI "AB" sampleProduct.name = true) :=
  list_products_search_spec dbOneProduct
    { category := some "rings", search := some "AB" } "AB" rfl
    (by decide) (by decide) (by intro c hc; cases hc; decide)
    (fixPid, sampleProduct)

end Rama
